import Mathlib

/-!
Verification of the profiling-statistics utilities in `profile.py` (PyUtil).

The embedding models the profiler-statistics pipeline:
`get_df_from_stats` (tabulate one profiling run), `aggregate_profiling_df`
(group rows by the composite `flf` label, aggregating mean/std/count),
`barplot_top_n_functions` (rank rows, take the top n, report the fraction of
total time), `ProfilerWithStatistics.run` (repeat a profiled call `n_reps`
times and concatenate the per-run tables), and the module's import block for
the optional seaborn dependency.

Tables are lists of rows; Python floats are modelled as rationals; a fatal
Python exception is modelled as the `error` branch of `Except`.
-/

/-- One item `(k, v)` of the `stats.stats` dictionary as consumed by
`get_df_from_stats`: the key `k = (file, line, function_name)` and the value
tuple `v` with `v[0]` the primitive call count, `v[1]` the total call count,
`v[2]` the total self time and `v[3]` the total cumulative time. -/
structure StatEntry where
  file : String
  line : ℤ
  func : String
  pcalls : ℕ
  ncalls : ℕ
  tot_time : ℚ
  cum_time : ℚ
deriving DecidableEq

/-- The composite label built in `get_df_from_stats`:
`str(fl) + ':' + str(line) + '\n' + str(func) + '()'`. -/
def mkFlf (fl : String) (line : ℤ) (func : String) : String :=
  fl ++ ":" ++ toString line ++ "\n" ++ func ++ "()"

/-- One row of the dataframe built by `get_df_from_stats`, columns
`["ncalls", "pcalls", "tot_time", "tot_time_per", "cum_time", "cum_time_per",
"file", "line", "function", "flf"]`. -/
structure ProfileRow where
  ncalls : ℕ
  pcalls : ℕ
  tot_time : ℚ
  tot_time_per : ℚ
  cum_time : ℚ
  cum_time_per : ℚ
  file : String
  line : ℤ
  function : String
  flf : String
deriving DecidableEq

/-- The row appended for one stats entry in the loop of `get_df_from_stats`:
`tot_time_per = v[2] / v[0] if v[0] > 0 else 0` and
`cum_time_per = v[3] / v[0] if v[0] > 0 else 0`. -/
def rowOfEntry (e : StatEntry) : ProfileRow :=
  { ncalls := e.ncalls
    pcalls := e.pcalls
    tot_time := e.tot_time
    tot_time_per := if 0 < e.pcalls then e.tot_time / (e.pcalls : ℚ) else 0
    cum_time := e.cum_time
    cum_time_per := if 0 < e.pcalls then e.cum_time / (e.pcalls : ℚ) else 0
    file := e.file
    line := e.line
    function := e.func
    flf := mkFlf e.file e.line e.func }

/-- Fatal Python exceptions reachable in this module: the failing
`assert (pcalls <= ncalls)` in `get_df_from_stats`, and the unbound local
name in `ProfilerWithStatistics.run` when the loop body never executed. -/
inductive PyError where
  | assertionError
  | nameError
deriving DecidableEq

/-- `get_df_from_stats(stats)`: iterate over the entries of `stats.stats`,
assert `pcalls <= ncalls` for each, and collect one `ProfileRow` per entry.
A failing assertion aborts the whole conversion with `AssertionError`, so no
dataframe is produced. -/
def get_df_from_stats : List StatEntry → Except PyError (List ProfileRow)
  | [] => .ok []
  | e :: rest =>
    if e.pcalls ≤ e.ncalls then
      match get_df_from_stats rest with
      | .ok rows => .ok (rowOfEntry e :: rows)
      | .error err => .error err
    else .error .assertionError

/-- `np.mean` over a group's column values. -/
def colMean (xs : List ℚ) : ℚ := xs.sum / (xs.length : ℚ)

/-- Square of pandas' `std` aggregate over a group's column values (sample
variance, `ddof = 1`); the dataframe's std column is its square root, which
is determined by this value. -/
def colVar (xs : List ℚ) : ℚ :=
  ((xs.map fun x => (x - colMean xs) ^ 2).sum) / ((xs.length : ℚ) - 1)

/-- The `(mean, std, count)` triple `agg([np.mean, np.std, 'count'])` produces
for one numeric column of one group; the std is carried as its square. -/
structure ColStats where
  mean : ℚ
  std2 : ℚ
  count : ℕ
deriving DecidableEq

/-- Aggregate one group's column values. -/
def colStats (xs : List ℚ) : ColStats := ⟨colMean xs, colVar xs, xs.length⟩

/-- One row of the aggregated dataframe: the group key `flf` plus the
mean/std/count triple for every numeric input column (the string columns
`file` and `function` are dropped by the aggregation). -/
structure AggRow where
  flf : String
  ncalls : ColStats
  pcalls : ColStats
  tot_time : ColStats
  tot_time_per : ColStats
  cum_time : ColStats
  cum_time_per : ColStats
  line : ColStats
deriving DecidableEq

/-- The values of one numeric column restricted to the rows of the group
with the given `flf` label. -/
def groupVals (df : List ProfileRow) (label : String) (f : ProfileRow → ℚ) : List ℚ :=
  (df.filter fun r => r.flf == label).map f

/-- The aggregated row for one group label. -/
def aggRowFor (df : List ProfileRow) (label : String) : AggRow :=
  { flf := label
    ncalls := colStats (groupVals df label fun r => (r.ncalls : ℚ))
    pcalls := colStats (groupVals df label fun r => (r.pcalls : ℚ))
    tot_time := colStats (groupVals df label fun r => r.tot_time)
    tot_time_per := colStats (groupVals df label fun r => r.tot_time_per)
    cum_time := colStats (groupVals df label fun r => r.cum_time)
    cum_time_per := colStats (groupVals df label fun r => r.cum_time_per)
    line := colStats (groupVals df label fun r => (r.line : ℚ)) }

/-- The distinct group keys in the order pandas' `groupby` emits them
(`sort=True`: lexicographically sorted). -/
def groupLabels (df : List ProfileRow) : List String :=
  List.insertionSort (· ≤ ·) (df.map ProfileRow.flf).dedup

/-- The frame built by `df.groupby(['flf'], as_index=False).agg([np.mean,
np.std, 'count'])`: one aggregated row per distinct `flf` label. -/
def aggregateCore (df : List ProfileRow) : List AggRow :=
  (groupLabels df).map (aggRowFor df)

/-- The pandas call `df.groupby(...).agg(...)` allocates a new aggregated
frame and leaves the receiver frame untouched; the pair returns the result
together with the receiver as the caller still sees it after the call. -/
def pandasGroupbyAgg (df : List ProfileRow) : List AggRow × List ProfileRow :=
  (aggregateCore df, df)

/-- The pandas call `df.reset_index()` (without `inplace`) returns a new
frame with the same rows and leaves the receiver untouched. -/
def pandasResetIndex (df : List AggRow) : List AggRow × List AggRow :=
  (df, df)

/-- Body of `aggregate_profiling_df(df)`: rebinds the local name `df` to
`df.groupby(['flf'], as_index=False).agg([np.mean, np.std, 'count'])`, then to
`df.reset_index()`, and returns it. The second component is the caller's
table as observable after the call. -/
def aggregate_profiling_df_call (df0 : List ProfileRow) : List AggRow × List ProfileRow :=
  let r1 := pandasGroupbyAgg df0
  let r2 := pandasResetIndex r1.1
  (r2.1, r1.2)

/-- The value `aggregate_profiling_df(df)` returns. -/
def aggregate_profiling_df (df : List ProfileRow) : List AggRow :=
  (aggregate_profiling_df_call df).1

/-- The column names a `sort_criterium` string may name in
`barplot_top_n_functions` (a numeric column of the aggregated frame). -/
inductive SortCrit where
  | ncalls
  | pcalls
  | tot_time
  | tot_time_per
  | cum_time
  | cum_time_per
deriving DecidableEq

/-- The `(sort_criterium, 'mean')` column of an aggregated row. -/
def critMean : SortCrit → AggRow → ℚ
  | .ncalls => fun r => r.ncalls.mean
  | .pcalls => fun r => r.pcalls.mean
  | .tot_time => fun r => r.tot_time.mean
  | .tot_time_per => fun r => r.tot_time_per.mean
  | .cum_time => fun r => r.cum_time.mean
  | .cum_time_per => fun r => r.cum_time_per.mean

/-- The `(sort_criterium, 'std')` column of an aggregated row, carried as its
square like `ColStats.std2`. -/
def critStd2 : SortCrit → AggRow → ℚ
  | .ncalls => fun r => r.ncalls.std2
  | .pcalls => fun r => r.pcalls.std2
  | .tot_time => fun r => r.tot_time.std2
  | .tot_time_per => fun r => r.tot_time_per.std2
  | .cum_time => fun r => r.cum_time.std2
  | .cum_time_per => fun r => r.cum_time_per.std2

/-- `df.sort(columns=[(sort_criterium, 'mean')], ascending=False)`. -/
def sortDescBy (sc : SortCrit) (df : List AggRow) : List AggRow :=
  List.insertionSort (fun a b => critMean sc b ≤ critMean sc a) df

/-- Python's `int()` applied to a rational: truncation toward zero. -/
def pyInt (q : ℚ) : ℤ := Int.tdiv q.num (q.den : ℤ)

/-- The observable outputs of `barplot_top_n_functions`: the locals
`total_time`, `data` (the rows drawn, in display order), `topn_time`,
`frac_time`, `errs` (the error-bar column when `show_std`; std carried
squared), and the text `txt` written onto the chart. -/
structure BarplotResult where
  total_time : ℚ
  data : List AggRow
  topn_time : ℚ
  frac_time : ℚ
  errs : Option (List ℚ)
  txt : String
deriving DecidableEq

/-- `barplot_top_n_functions(df, n, sort_criterium, show_std)`:
`tt = ('tot_time', 'mean')`; `s_c = (sort_criterium, 'mean')`;
`total_time = df[tt].sum()`;
`data = df.sort(columns=[s_c], ascending=False).iloc[0:n]`;
`topn_time = data[tt].sum()`; `frac_time = topn_time / total_time`;
`errs = data[(sort_criterium, 'std')]` when `show_std` else `None`;
`txt = str(int(100*frac_time)) + "% of total runtime"`. -/
def barplot_top_n_functions (df : List AggRow) (n : ℕ) (sort_criterium : SortCrit)
    (show_std : Bool) : BarplotResult :=
  let total_time : ℚ := (df.map fun r => r.tot_time.mean).sum
  let data : List AggRow := (sortDescBy sort_criterium df).take n
  let topn_time : ℚ := (data.map fun r => r.tot_time.mean).sum
  let frac_time : ℚ := topn_time / total_time
  let errs : Option (List ℚ) :=
    if show_std then some (data.map (critStd2 sort_criterium)) else none
  let txt : String := toString (pyInt (100 * frac_time)) ++ "% of total runtime"
  ⟨total_time, data, topn_time, frac_time, errs, txt⟩

/-- `ProfilerWithStatistics(n_reps).run(function_name, *args, **kwargs)`.
`runProfile rep` is the entry list of the stats object obtained by profiling
the deterministic callable in repetition `rep`. The loop
`for rep in xrange(self.n_reps)` builds the per-rep dataframe with
`get_df_from_stats` and concatenates (`pd.concat`, `ignore_index=True`);
after the loop, `return df, pstats.Stats(pr).strip_dirs()` reads the locals
`df` and `pr` of the last iteration — when `n_reps = 0` the loop body never
ran, those names are unbound, and a `NameError` is raised. -/
def ProfilerWithStatistics.run (n_reps : ℕ) (runProfile : ℕ → List StatEntry) :
    Except PyError (List ProfileRow × List StatEntry) :=
  if n_reps = 0 then .error .nameError
  else do
    let dfs ← (List.range n_reps).mapM fun rep => get_df_from_stats (runProfile rep)
    return (dfs.flatten, runProfile (n_reps - 1))

/-- The observable outcome of importing the module. -/
structure ModuleImportResult where
  completed : Bool
  warningRaised : Bool
  plottingAvailable : Bool
deriving DecidableEq

/-- Lines 8–16 of `profile.py`: `try: import seaborn as sns; sns.set...`
with a bare `except:` whose body is the bare expression statement
`ImportError('seaborn not found, plotting not available')` — the exception
object is constructed but never raised or logged, the handler falls through,
and module loading continues either way; the seaborn-based plotting calls
are unavailable when the import failed. -/
def moduleImport (seabornImportOk : Bool) : ModuleImportResult :=
  if seabornImportOk then
    { completed := true, warningRaised := false, plottingAvailable := true }
  else
    { completed := true, warningRaised := false, plottingAvailable := false }

/-- An aggregated row with the given `flf` label, `tot_time` mean and
`cum_time` mean (the remaining columns zeroed), used as concrete test data
for the renderer. -/
def mkAggRow (label : String) (totMean cumMean : ℚ) : AggRow :=
  { flf := label
    ncalls := ⟨0, 0, 1⟩
    pcalls := ⟨0, 0, 1⟩
    tot_time := ⟨totMean, 0, 1⟩
    tot_time_per := ⟨0, 0, 1⟩
    cum_time := ⟨cumMean, 0, 1⟩
    cum_time_per := ⟨0, 0, 1⟩
    line := ⟨0, 0, 1⟩ }

/-- Test table where the `tot_time` and `cum_time` mean columns rank the
rows in opposite orders. -/
def exTable2 : List AggRow := [mkAggRow "X" 1 9, mkAggRow "Y" 9 1]

/-- Test table whose single row has zero recorded time. -/
def zeroTable : List AggRow := [mkAggRow "f" 0 0]

/-- Stats entry of the spec's example function A: self time 6.0, 3 calls. -/
def eA : StatEntry := ⟨"a.py", 1, "A", 3, 3, 6, 6⟩

/-- Stats entry of the spec's example function B: self time 3.0, 1 call. -/
def eB : StatEntry := ⟨"b.py", 2, "B", 1, 1, 3, 3⟩

/-- Stats entry of the spec's example function C: self time 1.0, 1 call. -/
def eC : StatEntry := ⟨"c.py", 3, "C", 1, 1, 1, 1⟩

/-- The spec's example dump with functions A, B and C. -/
def exampleStats : List StatEntry := [eA, eB, eC]

/-- The dataframe the sample loader produces for the example dump. -/
def exampleDf : List ProfileRow := [rowOfEntry eA, rowOfEntry eB, rowOfEntry eC]

/-- Composite label of example function A. -/
def flfA : String := mkFlf "a.py" 1 "A"

/-- Composite label of example function B. -/
def flfB : String := mkFlf "b.py" 2 "B"

/-- Composite label of example function C. -/
def flfC : String := mkFlf "c.py" 3 "C"

/-- Stats entry violating the internal-consistency invariant:
2 primitive calls against 1 total call. -/
def eBad : StatEntry := ⟨"d.py", 4, "D", 2, 1, 0, 0⟩

/-- A deterministic profile: every repetition observes the single entry `eA`. -/
def wProfile : ℕ → List StatEntry := fun _ => [eA]

instance (sc : SortCrit) : IsTotal AggRow fun a b => critMean sc b ≤ critMean sc a :=
  ⟨fun a b => le_total (critMean sc b) (critMean sc a)⟩

instance (sc : SortCrit) : IsTrans AggRow fun a b => critMean sc b ≤ critMean sc a :=
  ⟨fun _ _ _ h1 h2 => le_trans h2 h1⟩

/-- Helper: when every entry satisfies the asserted invariant, the
conversion succeeds and maps each entry to its row. -/
theorem get_df_ok_of_valid (entries : List StatEntry)
    (h : ∀ e ∈ entries, e.pcalls ≤ e.ncalls) :
    get_df_from_stats entries = .ok (entries.map rowOfEntry) := by
  induction entries with
  | nil => rfl
  | cons e rest ih =>
    have he : e.pcalls ≤ e.ncalls := h e (List.mem_cons_self e rest)
    have hrest := ih fun x hx => h x (List.mem_cons_of_mem e hx)
    simp [get_df_from_stats, he, hrest]

/-- Helper: some entry violating the asserted invariant makes the whole
conversion fail with the assertion error. -/
theorem get_df_error_of_invalid (entries : List StatEntry)
    (h : ∃ e ∈ entries, e.ncalls < e.pcalls) :
    get_df_from_stats entries = .error .assertionError := by
  induction entries with
  | nil => simp at h
  | cons e rest ih =>
    by_cases he : e.pcalls ≤ e.ncalls
    · have : ∃ x ∈ rest, x.ncalls < x.pcalls := by
        obtain ⟨x, hx, hlt⟩ := h
        rcases List.mem_cons.mp hx with rfl | hx'
        · exact absurd he (Nat.not_le.mpr hlt)
        · exact ⟨x, hx', hlt⟩
      simp [get_df_from_stats, he, ih this]
    · simp [get_df_from_stats, he]

/-- Helper: a successful conversion is exactly the entry-wise row map. -/
theorem get_df_ok_elim (entries : List StatEntry) (rows : List ProfileRow)
    (h : get_df_from_stats entries = .ok rows) :
    rows = entries.map rowOfEntry := by
  induction entries generalizing rows with
  | nil =>
    simp [get_df_from_stats] at h
    simp [h]
  | cons e rest ih =>
    by_cases he : e.pcalls ≤ e.ncalls
    · simp only [get_df_from_stats, if_pos he] at h
      cases hr : get_df_from_stats rest with
      | ok rows' =>
        rw [hr] at h
        cases h
        simp [ih rows' hr]
      | error err => rw [hr] at h; cases h
    · simp [get_df_from_stats, if_neg he] at h

/-- C2: for every profiler-statistics entry converted by the sample loader,
the per-call self time equals total self time divided by primitive call
count when the primitive call count is nonzero and is exactly 0 when it is
0, and likewise for per-call cumulative time with total cumulative time as
numerator. -/
theorem get_df_percall_times (entries : List StatEntry) (rows : List ProfileRow)
    (h : get_df_from_stats entries = .ok rows) :
    ∀ r ∈ rows,
      (0 < r.pcalls →
        r.tot_time_per = r.tot_time / (r.pcalls : ℚ) ∧
        r.cum_time_per = r.cum_time / (r.pcalls : ℚ)) ∧
      (r.pcalls = 0 → r.tot_time_per = 0 ∧ r.cum_time_per = 0) := by
  intro r hr
  rw [get_df_ok_elim entries rows h] at hr
  obtain ⟨e, _, rfl⟩ := List.mem_map.mp hr
  constructor
  · intro hp
    have hp' : 0 < e.pcalls := hp
    simp [rowOfEntry, if_pos hp']
  · intro hp
    have hp' : ¬ 0 < e.pcalls := by
      simp only [rowOfEntry] at hp
      omega
    simp [rowOfEntry, if_neg hp']

/-- C2 witness: the conversion of the one-entry dump `[eA]` succeeds and its
row satisfies the per-call equations. -/
theorem get_df_percall_times_witness :
    get_df_from_stats [eA] = .ok [rowOfEntry eA] ∧
      ∀ r ∈ [rowOfEntry eA],
        (0 < r.pcalls →
          r.tot_time_per = r.tot_time / (r.pcalls : ℚ) ∧
          r.cum_time_per = r.cum_time / (r.pcalls : ℚ)) ∧
        (r.pcalls = 0 → r.tot_time_per = 0 ∧ r.cum_time_per = 0) :=
  ⟨rfl, get_df_percall_times [eA] [rowOfEntry eA] rfl⟩

/-- C3: an entry whose primitive call count exceeds its total call count
makes the sample loader fail with the fatal assertion (no rows are
produced); under the precondition `pcalls ≤ ncalls` for every entry the
assertion never fires and the conversion succeeds. -/
theorem get_df_assertion_behavior (entries : List StatEntry) :
    ((∃ e ∈ entries, e.ncalls < e.pcalls) →
        get_df_from_stats entries = .error .assertionError) ∧
    ((∀ e ∈ entries, e.pcalls ≤ e.ncalls) →
        get_df_from_stats entries = .ok (entries.map rowOfEntry)) :=
  ⟨get_df_error_of_invalid entries, get_df_ok_of_valid entries⟩

/-- C3 witness: the loader fails on the dump `[eBad]` (2 primitive calls
against 1 total call) and succeeds on the dump `[eA]`. -/
theorem get_df_assertion_behavior_witness :
    get_df_from_stats [eBad] = .error .assertionError ∧
      get_df_from_stats [eA] = .ok ([eA].map rowOfEntry) :=
  ⟨(get_df_assertion_behavior [eBad]).1 ⟨eBad, by decide, by decide⟩,
   (get_df_assertion_behavior [eA]).2 (by decide)⟩

/-- C7: the aggregator never mutates its input table: after the call the
caller's table is the unchanged input, and the result is the (new)
aggregated table. -/
theorem aggregate_does_not_mutate_input (df : List ProfileRow) :
    aggregate_profiling_df_call df = (aggregate_profiling_df df, df) := rfl

/-- C8: whether or not the optional seaborn import succeeds, module loading
completes, the constructed import warning is never raised or logged, and
plotting functionality is available exactly when the import succeeded. -/
theorem module_import_never_raises (seabornImportOk : Bool) :
    (moduleImport seabornImportOk).completed = true ∧
    (moduleImport seabornImportOk).warningRaised = false ∧
    (moduleImport seabornImportOk).plottingAvailable = seabornImportOk := by
  cases seabornImportOk <;> simp [moduleImport]

/-- C10: with `n_reps = 0` the repetition loop never executes, so the
return statement reads unbound locals and `run` raises `NameError` instead
of returning any table. -/
theorem run_zero_reps_name_error (runProfile : ℕ → List StatEntry) :
    ProfilerWithStatistics.run 0 runProfile = .error .nameError := rfl

/-- Helper: `mapM` of successful conversions collects the per-repetition
row tables. -/
theorem mapM_get_df_ok (runProfile : ℕ → List StatEntry) (l : List ℕ)
    (h : ∀ i ∈ l, ∀ e ∈ runProfile i, e.pcalls ≤ e.ncalls) :
    (l.mapM fun rep => get_df_from_stats (runProfile rep)) =
      .ok (l.map fun i => (runProfile i).map rowOfEntry) := by
  induction l with
  | nil => rfl
  | cons i rest ih =>
    have hi := get_df_ok_of_valid (runProfile i) (h i (List.mem_cons_self i rest))
    have hrest := ih fun j hj => h j (List.mem_cons_of_mem i hj)
    simp only [List.mapM_cons, hi, hrest, List.map_cons]
    rfl

/-- Helper: the length of a flattened list of lists of equal length `K`. -/
theorem flatten_length_const (K : ℕ) (ls : List (List ProfileRow))
    (h : ∀ t ∈ ls, t.length = K) : ls.flatten.length = ls.length * K := by
  induction ls with
  | nil => simp
  | cons t rest ih =>
    have ht := h t (List.mem_cons_self t rest)
    have := ih fun x hx => h x (List.mem_cons_of_mem t hx)
    simp [List.flatten, ht, this, Nat.succ_mul, Nat.add_comm]

/-- C4: with `n_reps = R ≥ 1` over a deterministic callable whose profile
observes `K` functions on each run (all entries consistent), `run` returns
the concatenation of all repetitions' rows — exactly `R * K` rows,
duplicates included — paired with the statistics of only the final
repetition. -/
theorem profiler_run_reps_rows (R K : ℕ) (runProfile : ℕ → List StatEntry)
    (hR : 1 ≤ R)
    (hK : ∀ i < R, (runProfile i).length = K)
    (hval : ∀ i < R, ∀ e ∈ runProfile i, e.pcalls ≤ e.ncalls) :
    ∃ table, ProfilerWithStatistics.run R runProfile = .ok (table, runProfile (R - 1)) ∧
      table.length = R * K := by
  have hR0 : R ≠ 0 := Nat.one_le_iff_ne_zero.mp hR
  have hmap := mapM_get_df_ok runProfile (List.range R)
    (fun i hi => hval i (List.mem_range.mp hi))
  refine ⟨(((List.range R).map fun i => (runProfile i).map rowOfEntry)).flatten, ?_, ?_⟩
  · simp only [ProfilerWithStatistics.run, if_neg hR0]
    rw [hmap]
    rfl
  · rw [flatten_length_const K]
    · simp
    · intro t ht
      obtain ⟨i, hi, rfl⟩ := List.mem_map.mp ht
      simp [hK i (List.mem_range.mp hi)]

/-- C4 witness: one repetition of a profile observing the single entry
`eA` yields a one-row table and the statistics of repetition 0. -/
theorem profiler_run_reps_rows_witness :
    ∃ table, ProfilerWithStatistics.run 1 wProfile = .ok (table, wProfile 0) ∧
      table.length = 1 * 1 :=
  profiler_run_reps_rows 1 1 wProfile (by decide)
    (fun i _ => by simp [wProfile])
    (fun i _ e he => by
      simp only [wProfile, List.mem_singleton] at he
      simp [he, eA])

/-- Helper: group statistics only depend on the multiset of column values. -/
theorem colStats_perm (xs ys : List ℚ) (h : xs.Perm ys) : colStats xs = colStats ys := by
  have hm : colMean xs = colMean ys := by
    simp [colMean, h.sum_eq, h.length_eq]
  simp [colStats, colVar, hm, (h.map fun x => (x - colMean ys) ^ 2).sum_eq, h.length_eq]

/-- Helper: a row permutation permutes every group's column values. -/
theorem groupVals_perm (df df' : List ProfileRow) (h : df.Perm df')
    (label : String) (f : ProfileRow → ℚ) :
    (groupVals df label f).Perm (groupVals df' label f) :=
  (h.filter _).map f

/-- Helper: aggregated rows are invariant under row permutation. -/
theorem aggRowFor_perm (df df' : List ProfileRow) (h : df.Perm df') (label : String) :
    aggRowFor df label = aggRowFor df' label := by
  have g : ∀ f : ProfileRow → ℚ,
      colStats (groupVals df label f) = colStats (groupVals df' label f) :=
    fun f => colStats_perm _ _ (groupVals_perm df df' h label f)
  simp only [aggRowFor, g]

/-- Helper: the sorted distinct group keys are invariant under row
permutation. -/
theorem groupLabels_perm (df df' : List ProfileRow) (h : df.Perm df') :
    groupLabels df = groupLabels df' := by
  refine List.eq_of_perm_of_sorted ?_
    (List.sorted_insertionSort _ _) (List.sorted_insertionSort _ _)
  exact ((List.perm_insertionSort _ _).trans ((h.map _).dedup)).trans
    (List.perm_insertionSort _ _).symm

/-- Helper: the key column of the aggregated frame is the sorted distinct
key list. -/
theorem aggregate_map_flf (df : List ProfileRow) :
    (aggregate_profiling_df df).map AggRow.flf = groupLabels df := by
  show ((groupLabels df).map (aggRowFor df)).map AggRow.flf = groupLabels df
  rw [List.map_map]
  have : AggRow.flf ∘ aggRowFor df = id := by
    funext l
    simp [aggRowFor, Function.comp]
  rw [this, List.map_id]

/-- C5: aggregation groups rows by the composite label only and is
invariant under any permutation of the input rows; the result has exactly
one row per distinct composite label (its key column is duplicate-free and
carries exactly the labels occurring in the input), each row holding the
mean/std/count statistics of the rows of its group. -/
theorem aggregate_perm_invariant (df df' : List ProfileRow) (h : df.Perm df') :
    aggregate_profiling_df df = aggregate_profiling_df df' ∧
    ((aggregate_profiling_df df).map AggRow.flf).Nodup ∧
    (∀ l : String,
      l ∈ (aggregate_profiling_df df).map AggRow.flf ↔ l ∈ df.map ProfileRow.flf) ∧
    (∀ row ∈ aggregate_profiling_df df, row = aggRowFor df row.flf) := by
  refine ⟨?_, ?_, ?_, ?_⟩
  · show aggregateCore df = aggregateCore df'
    rw [aggregateCore, aggregateCore, groupLabels_perm df df' h]
    exact List.map_congr_left fun l _ => aggRowFor_perm df df' h l
  · rw [aggregate_map_flf]
    exact ((List.perm_insertionSort _ _).symm).nodup (List.nodup_dedup _)
  · intro l
    rw [aggregate_map_flf, groupLabels,
      (List.perm_insertionSort _ _).mem_iff, List.mem_dedup]
  · intro row hrow
    obtain ⟨l, _, rfl⟩ := List.mem_map.mp hrow
    have : (aggRowFor df l).flf = l := rfl
    rw [this]

/-- C5 witness: aggregating the two-row table `[row eA, row eB]` in either
row order gives the same duplicate-free-by-key result. -/
theorem aggregate_perm_invariant_witness :
    aggregate_profiling_df [rowOfEntry eA, rowOfEntry eB] =
      aggregate_profiling_df [rowOfEntry eB, rowOfEntry eA] ∧
    ((aggregate_profiling_df [rowOfEntry eA, rowOfEntry eB]).map AggRow.flf).Nodup ∧
    (∀ l : String,
      l ∈ (aggregate_profiling_df [rowOfEntry eA, rowOfEntry eB]).map AggRow.flf ↔
        l ∈ [rowOfEntry eA, rowOfEntry eB].map ProfileRow.flf) ∧
    (∀ row ∈ aggregate_profiling_df [rowOfEntry eA, rowOfEntry eB],
      row = aggRowFor [rowOfEntry eA, rowOfEntry eB] row.flf) :=
  aggregate_perm_invariant [rowOfEntry eA, rowOfEntry eB]
    [rowOfEntry eB, rowOfEntry eA] (List.Perm.swap (rowOfEntry eB) (rowOfEntry eA) [])

/-- C1 (amended): for every aggregated table and every sort criterion, the
renderer computes the total time as the sum of the `tot_time` mean column
over every row (regardless of the chosen criterion), sorts rows descending
by the chosen criterion's mean, takes the first `n`, and reports as
fraction the sum of the `tot_time` means of those rows over that total. -/
theorem barplot_total_is_tot_time_column (df : List AggRow) (n : ℕ)
    (sc : SortCrit) (show_std : Bool) :
    (barplot_top_n_functions df n sc show_std).total_time =
      (df.map fun r => r.tot_time.mean).sum ∧
    (barplot_top_n_functions df n sc show_std).data = (sortDescBy sc df).take n ∧
    (sortDescBy sc df).Perm df ∧
    List.Sorted (fun a b => critMean sc b ≤ critMean sc a) (sortDescBy sc df) ∧
    (barplot_top_n_functions df n sc show_std).frac_time =
      ((barplot_top_n_functions df n sc show_std).data.map fun r => r.tot_time.mean).sum /
        (df.map fun r => r.tot_time.mean).sum :=
  ⟨rfl, rfl, List.perm_insertionSort _ _, List.sorted_insertionSort _ _, rfl⟩

/-- C1 counterexample: sorting `exTable2` by the `cum_time` criterion and
taking the top 1, the reported fraction is not the fraction of the ranking
metric's own column (the code reports 1/10 — the `tot_time` share — while
the ranking metric's share is 9/10). -/
theorem barplot_frac_not_by_sort_criterium_cex :
    (barplot_top_n_functions exTable2 1 .cum_time true).frac_time ≠
      ((barplot_top_n_functions exTable2 1 .cum_time true).data.map fun r =>
          critMean .cum_time r).sum /
        (exTable2.map fun r => critMean .cum_time r).sum := by
  norm_num [barplot_top_n_functions, sortDescBy, List.insertionSort,
    List.orderedInsert, critMean, exTable2, mkAggRow]

/-- C6 counterexample: on the one-row table whose only recorded time is 0,
taking `N = 1 ≥` the number of distinct functions, the reported fraction
(0/0) is not 1. -/
theorem barplot_frac_zero_total_cex :
    zeroTable.length ≤ 1 ∧
      (barplot_top_n_functions zeroTable 1 .tot_time true).frac_time ≠ 1 := by
  constructor
  · simp [zeroTable]
  · norm_num [barplot_top_n_functions, sortDescBy, List.insertionSort,
      List.orderedInsert, critMean, zeroTable, mkAggRow]

/-- C6 (amended): for every aggregated table whose `tot_time` mean column
is nonnegative with positive sum and every `N ≥ 1`, the reported fraction
of total time lies in `[0, 1]`, and equals exactly 1 when `N` is at least
the number of rows (distinct functions) of the table. -/
theorem barplot_frac_bounds (df : List AggRow) (n : ℕ) (sc : SortCrit)
    (show_std : Bool) (hn : 1 ≤ n)
    (h0 : ∀ r ∈ df, 0 ≤ r.tot_time.mean)
    (htot : 0 < (df.map fun r => r.tot_time.mean).sum) :
    (0 ≤ (barplot_top_n_functions df n sc show_std).frac_time ∧
      (barplot_top_n_functions df n sc show_std).frac_time ≤ 1) ∧
    (df.length ≤ n → (barplot_top_n_functions df n sc show_std).frac_time = 1) := by
  have hperm : ((sortDescBy sc df).map fun r => r.tot_time.mean).Perm
      (df.map fun r => r.tot_time.mean) :=
    (List.perm_insertionSort _ _).map _
  set L : List ℚ := (sortDescBy sc df).map fun r => r.tot_time.mean with hLdef
  have hsum : L.sum = (df.map fun r => r.tot_time.mean).sum := hperm.sum_eq
  have hLpos : ∀ x ∈ L, 0 ≤ x := by
    intro x hx
    obtain ⟨r, hr, rfl⟩ := List.mem_map.mp (hperm.mem_iff.mp hx)
    exact h0 r hr
  have hfrac : (barplot_top_n_functions df n sc show_std).frac_time =
      (L.take n).sum / L.sum := by
    simp only [barplot_top_n_functions, hLdef, List.map_take, hsum]
  have htake_nonneg : 0 ≤ (L.take n).sum :=
    List.sum_nonneg fun x hx => hLpos x (List.take_subset n L hx)
  have hdrop_nonneg : 0 ≤ (L.drop n).sum :=
    List.sum_nonneg fun x hx => hLpos x (List.drop_subset n L hx)
  have htake_le : (L.take n).sum ≤ L.sum := by
    have := List.sum_take_add_sum_drop L n
    linarith
  have hLsum_pos : 0 < L.sum := hsum ▸ htot
  refine ⟨⟨?_, ?_⟩, ?_⟩
  · rw [hfrac]
    exact div_nonneg htake_nonneg (le_of_lt hLsum_pos)
  · rw [hfrac]
    exact (div_le_one hLsum_pos).mpr htake_le
  · intro hlen
    have hLlen : L.length ≤ n := by
      have h1 : L.length = df.length := by
        simp only [hLdef, List.length_map, sortDescBy]
        exact (List.perm_insertionSort _ df).length_eq
      rw [h1]
      exact hlen
    rw [hfrac, List.take_of_length_le hLlen]
    exact div_self (ne_of_gt hLsum_pos)

/-- C6 witness: on `exTable2` (nonnegative times summing to 10) with
`N = 2` rows shown out of 2, the fraction lies in `[0, 1]` and equals 1. -/
theorem barplot_frac_bounds_witness :
    (1 ≤ 2 ∧ (∀ r ∈ exTable2, 0 ≤ r.tot_time.mean) ∧
      0 < (exTable2.map fun r => r.tot_time.mean).sum) ∧
    ((0 ≤ (barplot_top_n_functions exTable2 2 .tot_time true).frac_time ∧
      (barplot_top_n_functions exTable2 2 .tot_time true).frac_time ≤ 1) ∧
    (exTable2.length ≤ 2 →
      (barplot_top_n_functions exTable2 2 .tot_time true).frac_time = 1)) := by
  have h0 : ∀ r ∈ exTable2, 0 ≤ r.tot_time.mean := by
    intro r hr
    simp only [exTable2, List.mem_cons, List.not_mem_nil, or_false] at hr
    rcases hr with rfl | rfl <;> norm_num [mkAggRow]
  have htot : 0 < (exTable2.map fun r => r.tot_time.mean).sum := by
    norm_num [exTable2, mkAggRow]
  exact ⟨⟨by norm_num, h0, htot⟩,
    barplot_frac_bounds exTable2 2 .tot_time true (by norm_num) h0 htot⟩

/-- Helper: the sorted distinct labels of the example dataframe. -/
theorem exampleLabels : groupLabels exampleDf = [flfA, flfB, flfC] := by
  have h1 : flfA ≤ flfB := by
    rw [String.le_iff_toList_le]
    decide
  have h2 : flfB ≤ flfC := by
    rw [String.le_iff_toList_le]
    decide
  have hd : (exampleDf.map ProfileRow.flf).dedup = [flfA, flfB, flfC] := rfl
  rw [groupLabels, hd]
  simp only [List.insertionSort, List.orderedInsert, if_pos h1, if_pos h2]

/-- Helper: aggregating the example dataframe yields one row per label, in
sorted label order. -/
theorem exampleAgg_eq : aggregate_profiling_df exampleDf =
    [aggRowFor exampleDf flfA, aggRowFor exampleDf flfB, aggRowFor exampleDf flfC] := by
  show (groupLabels exampleDf).map (aggRowFor exampleDf) = _
  rw [exampleLabels]
  rfl

/-- Helper: the aggregated `tot_time` means of the example's three
functions. -/
theorem exampleMeans :
    (aggRowFor exampleDf flfA).tot_time.mean = 6 ∧
    (aggRowFor exampleDf flfB).tot_time.mean = 3 ∧
    (aggRowFor exampleDf flfC).tot_time.mean = 1 := by
  refine ⟨?_, ?_, ?_⟩
  · show colMean (groupVals exampleDf flfA fun r => r.tot_time) = 6
    rw [show groupVals exampleDf flfA (fun r => r.tot_time) = [(6:ℚ)] from rfl]
    norm_num [colMean]
  · show colMean (groupVals exampleDf flfB fun r => r.tot_time) = 3
    rw [show groupVals exampleDf flfB (fun r => r.tot_time) = [(3:ℚ)] from rfl]
    norm_num [colMean]
  · show colMean (groupVals exampleDf flfC fun r => r.tot_time) = 1
    rw [show groupVals exampleDf flfC (fun r => r.tot_time) = [(1:ℚ)] from rfl]
    norm_num [colMean]

/-- Helper: sorting the example's aggregated rows descending by total self
time keeps the order A, B, C. -/
theorem exampleSorted : sortDescBy .tot_time
    [aggRowFor exampleDf flfA, aggRowFor exampleDf flfB, aggRowFor exampleDf flfC] =
    [aggRowFor exampleDf flfA, aggRowFor exampleDf flfB, aggRowFor exampleDf flfC] := by
  obtain ⟨mA, mB, mC⟩ := exampleMeans
  simp only [sortDescBy, List.insertionSort, List.orderedInsert, critMean, mA, mB, mC]
  norm_num

/-- Helper: the annotation text is built from the reported fraction. -/
theorem barplot_txt_def (df : List AggRow) (n : ℕ) (sc : SortCrit) (ss : Bool) :
    (barplot_top_n_functions df n sc ss).txt =
      toString (pyInt (100 * (barplot_top_n_functions df n sc ss).frac_time)) ++
        "% of total runtime" := rfl

/-- C9: on the dump with functions A (self 6.0, 3 calls), B (self 3.0,
1 call), C (self 1.0, 1 call), the top-2 selection by total self time picks
A and B, the total time is 10, the reported fraction is 9/10, and the chart
text is "90% of total runtime". -/
theorem barplot_example_scenario :
    get_df_from_stats exampleStats = .ok exampleDf ∧
    ((barplot_top_n_functions (aggregate_profiling_df exampleDf) 2 .tot_time true).data.map
        AggRow.flf) = [flfA, flfB] ∧
    (barplot_top_n_functions (aggregate_profiling_df exampleDf) 2 .tot_time true).total_time
      = 10 ∧
    (barplot_top_n_functions (aggregate_profiling_df exampleDf) 2 .tot_time true).frac_time
      = 9 / 10 ∧
    (barplot_top_n_functions (aggregate_profiling_df exampleDf) 2 .tot_time true).txt
      = "90% of total runtime" := by
  obtain ⟨mA, mB, mC⟩ := exampleMeans
  have hdata : (barplot_top_n_functions (aggregate_profiling_df exampleDf) 2 .tot_time
      true).data = [aggRowFor exampleDf flfA, aggRowFor exampleDf flfB] := by
    show (sortDescBy .tot_time (aggregate_profiling_df exampleDf)).take 2 = _
    rw [exampleAgg_eq, exampleSorted]
    rfl
  have htotal : (barplot_top_n_functions (aggregate_profiling_df exampleDf) 2 .tot_time
      true).total_time = 10 := by
    show ((aggregate_profiling_df exampleDf).map fun r => r.tot_time.mean).sum = 10
    rw [exampleAgg_eq]
    simp only [List.map_cons, List.map_nil, List.sum_cons, List.sum_nil, mA, mB, mC]
    norm_num
  have hfrac : (barplot_top_n_functions (aggregate_profiling_df exampleDf) 2 .tot_time
      true).frac_time = 9 / 10 := by
    show (((sortDescBy .tot_time (aggregate_profiling_df exampleDf)).take 2).map
        fun r => r.tot_time.mean).sum /
      ((aggregate_profiling_df exampleDf).map fun r => r.tot_time.mean).sum = 9 / 10
    rw [exampleAgg_eq, exampleSorted]
    norm_num [mA, mB, mC]
  refine ⟨rfl, ?_, htotal, hfrac, ?_⟩
  · rw [hdata]
    rfl
  · rw [barplot_txt_def, hfrac]
    rw [show (100 : ℚ) * (9 / 10) = 90 by norm_num]
    rw [show pyInt 90 = 90 by
      simp [pyInt, Rat.num_ofNat, Rat.den_ofNat]]
    rfl
